import Mathlib

/-!
Formal model of the LEDMatrix music plugin (`src/manager.py`).

The development shallowly embeds the parts of `MusicPlugin` that the
specification talks about:

* the normalizer `get_simplified_track_info` (manager.py lines 605-676),
* the YTM update/apply logic of `_process_ytm_data_update` (lines 204-336),
* the Spotify polling apply logic of `_poll_music_data` (lines 480-532),
* the capacity-1 event queue (`ytm_event_data_queue`, lines 320-328 and 743-751),
* the Nothing-Playing branch of `display` (lines 793-849),
* the per-field scroll state machine of `display` (lines 972-1148).

Python dictionaries are embedded as structures whose optional values are
`Option`; the extra bookkeeping key `album_art_url_prev_spotify` that the
Spotify poll path stores inside the current-track dict (line 528) is modelled
by the `prev_spotify` field of `StoredInfo` (`none` = key absent).
Timestamps are integers, the opaque PIL image handle is `Option Nat`.
-/

set_option maxHeartbeats 1000000

/-- Mirrors the `MusicSource` enum (manager.py lines 38-41). -/
inductive MusicSource where
  | NONE
  | SPOTIFY
  | YTM
  deriving DecidableEq

/-- A normalized track-info dictionary as produced by
`get_simplified_track_info` (manager.py lines 608-676).  Values that can be
`None` in Python are `Option`s. -/
structure TrackInfo where
  source : String
  title : Option String
  artist : Option String
  album : Option String
  album_art_url : Option String
  duration_ms : Option Int
  progress_ms : Option Int
  is_playing : Bool
  deriving DecidableEq

/-- The canonical "Nothing Playing" dictionary (manager.py lines 609-618). -/
def nothingPlayingInfo : TrackInfo :=
  { source := "None"
    title := some "Nothing Playing"
    artist := some ""
    album := some ""
    album_art_url := none
    duration_ms := some 0
    progress_ms := some 0
    is_playing := false }

/-- Python truthiness of an optional string: `None` and `""` are falsy. -/
def optTruthy : Option String → Bool
  | none => false
  | some s => if s = "" then false else true

/-- The `album` sub-dict of a Spotify item (`item['album']`). -/
structure SpotifyAlbum where
  name : Option String
  images : List (Option String)
  deriving DecidableEq

/-- A Spotify `item` dict; `artists` is the list of artist names. -/
structure SpotifyItem where
  name : Option String
  artists : List String
  album : Option SpotifyAlbum
  duration_ms : Option Int
  deriving DecidableEq

/-- A raw Spotify snapshot.  `item = none` models a missing or empty (falsy)
item dict (manager.py lines 621-624). -/
structure SpotifyData where
  item : Option SpotifyItem
  is_playing : Bool
  progress_ms : Option Int
  deriving DecidableEq

/-- The `video` sub-dict of a raw YTM snapshot (manager.py lines 638-644). -/
structure YtmVideo where
  title : Option String
  author : Option String
  thumbnails : List (Option String)
  album : Option String
  durationSeconds : Option Int
  deriving DecidableEq

/-- The `player` sub-dict of a raw YTM snapshot (manager.py lines 639-663).
Seconds are embedded as integers; the Python code truncates
`int(seconds * 1000)` which for integer seconds is plain multiplication. -/
structure YtmPlayer where
  trackState : Option Int
  adPlaying : Bool
  videoProgress : Option Int
  deriving DecidableEq

/-- A raw YTM snapshot. -/
structure YtmData where
  video : YtmVideo
  player : YtmPlayer
  deriving DecidableEq

/-- A raw snapshot from either source. -/
inductive RawTrackData where
  | spotify (d : SpotifyData)
  | ytm (d : YtmData)
  deriving DecidableEq

/-- `item.get('album', {}).get('images', [{}])[0].get('url') if
item.get('album', {}).get('images') else None` (manager.py line 632). -/
def spotifyAlbumArtUrl (item : SpotifyItem) : Option String :=
  match item.album with
  | none => none
  | some alb =>
    match alb.images with
    | [] => none
    | u :: _ => u

/-- `get_simplified_track_info` (manager.py lines 605-676).  A raw dict whose
shape does not match the requested source parses to the nothing-playing
record, exactly as the Python `.get` chains would. -/
def get_simplified_track_info (track_data : Option RawTrackData) (source : MusicSource) :
    TrackInfo :=
  match source, track_data with
  | MusicSource.SPOTIFY, some (RawTrackData.spotify d) =>
    match d.item with
    | none => nothingPlayingInfo
    | some item =>
      if d.is_playing = false then nothingPlayingInfo
      else
        { source := "Spotify"
          title := item.name
          artist := some (String.intercalate ", " item.artists)
          album := (match item.album with | none => none | some alb => alb.name)
          album_art_url := spotifyAlbumArtUrl item
          duration_ms := item.duration_ms
          progress_ms := d.progress_ms
          is_playing := d.is_playing }
  | MusicSource.YTM, some (RawTrackData.ytm d) =>
    if d.player.adPlaying = true then nothingPlayingInfo
    else if optTruthy d.video.title = false ∨ optTruthy d.video.author = false then
      nothingPlayingInfo
    else
      { source := "YouTube Music"
        title := d.video.title
        artist := d.video.author
        album := some ((d.video.album).getD "")
        album_art_url := (match d.video.thumbnails with | [] => none | u :: _ => u)
        duration_ms := some (match d.video.durationSeconds with | some s => s * 1000 | none => 0)
        progress_ms := some (match d.player.videoProgress with | some p => p * 1000 | none => 0)
        is_playing := if d.player.trackState = some 1 then true else false }
  | _, _ => nothingPlayingInfo

/-- The dictionary stored in `self.current_track_info`.  `prev_spotify`
models the `album_art_url_prev_spotify` key that the Spotify poll path adds
(manager.py line 528): `none` means the key is absent, `some v` that the key
is present with value `v`. -/
structure StoredInfo where
  info : TrackInfo
  prev_spotify : Option (Option String)
  deriving DecidableEq

/-- `stored.get('album_art_url_prev_spotify')`: `None` when the key is
absent, otherwise the stored value. -/
def StoredInfo.getPrevSpotify (st : StoredInfo) : Option String :=
  match st.prev_spotify with
  | none => none
  | some v => v

/-- The capacity-1 `queue.Queue` bridging the YTM push callback and the
render loop (`ytm_event_data_queue`, manager.py line 102). -/
abbrev EventQueue := Option TrackInfo

/-- The drain loop `while not self.ytm_event_data_queue.empty():
get_nowait()` (manager.py lines 323-324) leaves the queue empty. -/
def drainEventQueue (_ : EventQueue) : EventQueue := none

/-- Publishing into the bridge (manager.py lines 322-328): drain the queue,
then `put_nowait` the new value.  Putting into the just-drained queue always
succeeds (the `queue.Full` handler would leave the queue unchanged). -/
def publishEvent (q : EventQueue) (v : TrackInfo) : EventQueue :=
  match drainEventQueue q with
  | none => some v
  | some w => some w

/-- The render loop's non-blocking take (`get_nowait` with
`except queue.Empty`, manager.py lines 746-751): returns the pending value
and empties the slot, or returns nothing when the slot is empty. -/
def tryTakeEvent (q : EventQueue) : Option TrackInfo × EventQueue :=
  match q with
  | some v => (some v, none)
  | none => (none, none)

/-- The shared mutable state of `MusicPlugin` that the update paths touch. -/
structure MusicState where
  current_track_info : Option StoredInfo
  current_source : MusicSource
  album_art_image : Option Nat
  last_album_art_url : Option String
  needs_immediate_full_refresh : Bool
  ytm_event_data_queue : EventQueue
  deriving DecidableEq

/-- The state right after construction (manager.py lines 60-102). -/
def initialMusicState : MusicState :=
  { current_track_info := none
    current_source := MusicSource.NONE
    album_art_image := none
    last_album_art_url := none
    needs_immediate_full_refresh := false
    ytm_event_data_queue := none }

/-- The significance test of `_process_ytm_data_update` (manager.py lines
242-252), also duplicated verbatim in the Spotify poll path (lines 490-500):
significant when nothing is stored and the incoming title is not the literal
string `'Nothing Playing'`, or when any of title / artist / album-art URL /
is-playing differs from the stored dict. -/
def classifySignificant (cur : Option StoredInfo) (si : TrackInfo) : Bool :=
  match cur with
  | none => if si.title = some "Nothing Playing" then false else true
  | some c =>
    if si.title = c.info.title ∧ si.artist = c.info.artist ∧
       si.album_art_url = c.info.album_art_url ∧ si.is_playing = c.info.is_playing
    then false else true

/-- Python equality between the fresh normalized dict `si` (which never
contains the `album_art_url_prev_spotify` key) and the stored
`current_track_info` (a dict or `None`). -/
def simplifiedEqStored (si : TrackInfo) (cur : Option StoredInfo) : Bool :=
  match cur with
  | none => false
  | some c => if c.prev_spotify = none ∧ c.info = si then true else false

/-- The `current_source` update rules of `_process_ytm_data_update`
(manager.py lines 261-267). -/
def updateCurrentSource (src : MusicSource) (si : TrackInfo) : MusicSource :=
  if si.source = "YouTube Music" ∧ si.is_playing = true then MusicSource.YTM
  else if src = MusicSource.YTM ∧ si.is_playing = false then MusicSource.NONE
  else if si.source = "None" then MusicSource.NONE
  else src

/-- `self.current_track_info.get('album_art_url') if self.current_track_info
else None` (manager.py line 256). -/
def storedAlbumArtUrl : Option StoredInfo → Option String
  | some c => c.info.album_art_url
  | none => none

/-- The album-art cache update chain of `_process_ytm_data_update`
(manager.py lines 274-288), returning the new cached image and cached URL. -/
def ytmArtUpdate (oldUrl : Option String) (si : TrackInfo) (lastUrl : Option String)
    (img : Option Nat) : Option Nat × Option String :=
  let newUrl := si.album_art_url
  if newUrl = oldUrl then
    if optTruthy lastUrl = false ∧ optTruthy newUrl = true then (none, newUrl)
    else if newUrl = none ∧ oldUrl ≠ none then (none, none)
    else if optTruthy si.album_art_url = true ∧ optTruthy lastUrl = false then
      (none, si.album_art_url)
    else (img, lastUrl)
  else (none, newUrl)

/-- The body of the `with self.track_info_lock` block of
`_process_ytm_data_update` (manager.py lines 237-318).  Returns the new
state together with the `significant_change_detected` and
`processed_a_meaningful_update` flags.  The equal-dict branch contains the
re-check at lines 309-318, which is unreachable (dict equality forces a
stored dict to exist) but embedded for faithfulness. -/
def ytmApplyCore (s : MusicState) (si : TrackInfo) : MusicState × Bool × Bool :=
  let significant := classifySignificant s.current_track_info si
  if simplifiedEqStored si s.current_track_info = false then
    let oldUrl := storedAlbumArtUrl s.current_track_info
    let src := updateCurrentSource s.current_source si
    let art := ytmArtUpdate oldUrl si s.last_album_art_url s.album_art_image
    ({ s with current_track_info := some ⟨si, none⟩
              current_source := src
              album_art_image := art.1
              last_album_art_url := art.2 }, significant, true)
  else
    if s.current_track_info = none ∧ si.title ≠ some "Nothing Playing" then
      ({ s with current_track_info := some ⟨si, none⟩ }, true, true)
    else
      (s, significant, false)

/-- Change classification as described by the spec (`None` / `Minor` /
`Significant`), reconstructed from the two flags the code computes. -/
inductive ChangeKind where
  | noChange
  | minor
  | significant
  deriving DecidableEq

/-- `Significant` when `significant_change_detected`, else `Minor` when
`processed_a_meaningful_update`, else `None`. -/
def applyChangeKind (significant processed : Bool) : ChangeKind :=
  if significant = true then ChangeKind.significant
  else if processed = true then ChangeKind.minor
  else ChangeKind.noChange

/-- One application of a normalized record through
`_process_ytm_data_update` after normalization: the locked apply (lines
237-318), the event-queue publish for push-origin updates (lines 320-328),
and the refresh-flag update (lines 330-334). -/
def applyTrackInfoUpdate (s : MusicState) (si : TrackInfo) (isEventSource : Bool) :
    MusicState × ChangeKind :=
  let r := ytmApplyCore s si
  let s1 := r.1
  let s2 :=
    if isEventSource = true then
      { s1 with ytm_event_data_queue := publishEvent s1.ytm_event_data_queue si }
    else s1
  let s3 :=
    if r.2.1 = true then { s2 with needs_immediate_full_refresh := true } else s2
  (s3, applyChangeKind r.2.1 r.2.2)

/-- The full `_process_ytm_data_update` pipeline (manager.py lines 226-336):
raw data with `trackState != 1` or an ad playing is normalized as if no data
were present (lines 229-232), then applied.  Returns the new state, the
normalized record and the change kind. -/
def process_ytm_data_update (s : MusicState) (rawData : Option YtmData)
    (isEventSource : Bool) : MusicState × TrackInfo × ChangeKind :=
  let simplified :=
    match rawData with
    | none => get_simplified_track_info none MusicSource.NONE
    | some d =>
      if d.player.trackState = some 1 ∧ d.player.adPlaying = false then
        get_simplified_track_info (some (RawTrackData.ytm d)) MusicSource.YTM
      else
        get_simplified_track_info none MusicSource.NONE
  let r := applyTrackInfoUpdate s simplified isEventSource
  (r.1, simplified, r.2)

/-- The active-track branch of the Spotify poll body (manager.py lines
486-532), applied to an already-normalized record `si`.  Returns the new
state, `significant_change_detected`, and whether the update branch ran
(i.e. the stored dict was replaced).  Line 523 reads the previous-URL
bookkeeping key from `self.current_track_info` after line 504 has already
replaced it with the fresh dict, so `oldUrl` is read from the freshly
stored dict (which never has the key); line 528 then writes the key into
the stored dict. -/
def spotifyPollApply (s : MusicState) (si : TrackInfo) : MusicState × Bool × Bool :=
  if simplifiedEqStored si s.current_track_info = false then
    let significant := classifySignificant s.current_track_info si
    let replaced : StoredInfo := ⟨si, none⟩
    let oldUrl := replaced.getPrevSpotify
    let newUrl := si.album_art_url
    let art :=
      if newUrl = oldUrl then (s.album_art_image, s.last_album_art_url)
      else ((none : Option Nat), newUrl)
    let stored : StoredInfo := { replaced with prev_spotify := some newUrl }
    ({ s with current_track_info := some stored
              current_source := MusicSource.SPOTIFY
              needs_immediate_full_refresh := s.needs_immediate_full_refresh || significant
              album_art_image := art.1
              last_album_art_url := art.2 }, significant, true)
  else
    (s, false, false)

/-- Per-field scroll state: `scroll_position_X`, `X_scroll_tick`,
`X_initial_pause_counter`, `X_end_pause_counter`, `X_at_end`
(manager.py lines 70-98). -/
structure ScrollState where
  scroll_position : Nat
  scroll_tick : Nat
  initial_pause_counter : Nat
  end_pause_counter : Nat
  at_end : Bool
  deriving DecidableEq

/-- The all-zero scroll state set at construction. -/
def zeroScrollState : ScrollState :=
  { scroll_position := 0
    scroll_tick := 0
    initial_pause_counter := 0
    end_pause_counter := 0
    at_end := false }

/-- A per-field entry of `self.scroll_config` (manager.py lines 83-87). -/
structure ScrollConfig where
  enabled : Bool
  speed : Nat
  separator : String
  initial_pause_frames : Nat
  end_pause_frames : Nat
  deriving DecidableEq

/-- The speed-gated advance at the end of each scrolling field block
(manager.py lines 1005-1010): increment the tick counter; once it reaches
the configured speed, advance the offset by one modulo the text length —
unless paused at the end — and reset the tick counter. -/
def scrollAdvance (cfg : ScrollConfig) (text : String) (st : ScrollState) : ScrollState :=
  let st1 := { st with scroll_tick := st.scroll_tick + 1 }
  if st1.scroll_tick ≥ cfg.speed then
    let st2 :=
      if st1.at_end = false ∨ st1.end_pause_counter ≥ cfg.end_pause_frames then
        { st1 with scroll_position := (st1.scroll_position + 1) % text.length }
      else st1
    { st2 with scroll_tick := 0 }
  else st1

/-- One render tick of a text field (the title block, manager.py lines
972-1022; the artist and album blocks, lines 1027-1144, are identical up to
the truncation divisor `truncDiv` — 6 for the title, 5 for artist/album).
Returns the updated scroll state and the text drawn this tick. -/
def scrollFieldTick (truncDiv : Nat) (cfg : ScrollConfig) (text : String)
    (textWidth textAreaWidth : Nat) (st : ScrollState) : ScrollState × String :=
  if textWidth > textAreaWidth ∧ cfg.enabled = true then
    if st.initial_pause_counter < cfg.initial_pause_frames then
      ({ st with initial_pause_counter := st.initial_pause_counter + 1 }, text)
    else
      let maxScrollPos := text.length - 1
      let mid :=
        if st.scroll_position ≥ maxScrollPos then
          let stA := if st.at_end = false then { st with at_end := true, end_pause_counter := 0 } else st
          if stA.end_pause_counter < cfg.end_pause_frames then
            let stB := { stA with end_pause_counter := stA.end_pause_counter + 1 }
            (stB, text.drop stB.scroll_position ++ cfg.separator ++ text.take stB.scroll_position)
          else
            let stB := { stA with scroll_position := 0, initial_pause_counter := 0,
                                  end_pause_counter := 0, at_end := false }
            (stB, text ++ cfg.separator ++ text.take stB.scroll_position)
        else
          ({ st with at_end := false },
           text.drop st.scroll_position ++ cfg.separator ++ text.take st.scroll_position)
      (scrollAdvance cfg text mid.1, mid.2)
  else if textWidth > textAreaWidth ∧ cfg.enabled = false then
    ({ st with scroll_position := 0, scroll_tick := 0 },
     text.take (textAreaWidth / truncDiv) ++ "...")
  else
    ({ st with scroll_position := 0, scroll_tick := 0, initial_pause_counter := 0,
               end_pause_counter := 0, at_end := false }, text)

/-- Iterated render ticks of one field with fixed text, width and area. -/
def scrollFieldIter (truncDiv : Nat) (cfg : ScrollConfig) (text : String)
    (textWidth textAreaWidth : Nat) : Nat → ScrollState → ScrollState
  | 0, st => st
  | n + 1, st =>
    (scrollFieldTick truncDiv cfg text textWidth textAreaWidth
      (scrollFieldIter truncDiv cfg text textWidth textAreaWidth n st)).1

/-- The album field block with its height gate (manager.py lines 1086-1150):
when the remaining height is insufficient the block is skipped entirely
(no state change, nothing drawn); otherwise it behaves like the shared
field algorithm with truncation divisor 5. -/
def albumScrollTick (heightOk : Bool) (cfg : ScrollConfig) (text : String)
    (textWidth textAreaWidth : Nat) (st : ScrollState) : ScrollState × Option String :=
  if heightOk = true then
    let r := scrollFieldTick 5 cfg text textWidth textAreaWidth st
    (r.1, some r.2)
  else (st, none)

/-- The display-side state the Nothing-Playing branch of `display` touches
(manager.py lines 793-849), plus the priority-mode fields it reads. -/
structure DisplayState where
  title_state : ScrollState
  artist_state : ScrollState
  album_state : ScrollState
  album_art_image : Option Nat
  last_album_art_url : Option String
  is_currently_showing_nothing_playing : Bool
  music_priority_mode : Bool
  music_priority_active : Bool
  nothing_playing_since_ts : Option Int
  nothing_playing_timeout_seconds : Int
  deriving DecidableEq

/-- Whether the priority nothing-playing timeout fires this tick
(manager.py lines 814-825): with priority mode configured and active, the
elapsed nothing-playing duration — measured from the (just-initialized)
`_nothing_playing_since_ts`, falling back to `now` when that timestamp is
falsy — has reached `nothing_playing_timeout_seconds`. -/
def npPriorityTimeoutFires (s : DisplayState) (now : Int) : Bool :=
  let since := if s.nothing_playing_since_ts = none then some now else s.nothing_playing_since_ts
  if s.music_priority_mode = true ∧ s.music_priority_active = true then
    let base :=
      match since with
      | some t => if t = 0 then now else t
      | none => now
    if now - base ≥ s.nothing_playing_timeout_seconds then true else false
  else false

/-- The Nothing-Playing branch of `display` (manager.py lines 813-849),
entered when the snapshot is absent or its title is `'Nothing Playing'`.
Returns the new state, whether anything was drawn this tick, and whether
the tick returned early through the priority timeout path.  The branch
always returns before any further drawing. -/
def nothingPlayingTick (s : DisplayState) (performFullRefresh : Bool) (now : Int) :
    DisplayState × Bool × Bool :=
  let since := if s.nothing_playing_since_ts = none then some now else s.nothing_playing_since_ts
  let s0 := { s with nothing_playing_since_ts := since }
  if npPriorityTimeoutFires s now = true then
    ({ s0 with music_priority_active := false, nothing_playing_since_ts := none }, false, true)
  else
    let drew := (!s0.is_currently_showing_nothing_playing) || performFullRefresh
    let s1 :=
      if drew = true then { s0 with is_currently_showing_nothing_playing := true } else s0
    let s2 :=
      { s1 with
          title_state := { s1.title_state with scroll_position := 0, scroll_tick := 0 }
          artist_state := { s1.artist_state with scroll_position := 0, scroll_tick := 0 }
          album_state := { s1.album_state with scroll_position := 0, scroll_tick := 0 } }
    let s3 :=
      if s2.album_art_image ≠ none ∨ s2.last_album_art_url ≠ none then
        { s2 with album_art_image := none, last_album_art_url := none }
      else s2
    (s3, drew, false)

/-! ### Concrete sample inputs used by witnesses and counterexamples -/

/-- A representative playing Spotify snapshot. -/
def sampleSpotifyData : SpotifyData :=
  { item := some
      { name := some "Song One"
        artists := ["Artist A"]
        album := some { name := some "Album X", images := [some "spot-art-1"] }
        duration_ms := some 200000 }
    is_playing := true
    progress_ms := some 1000 }

/-- The normalized record of `sampleSpotifyData`. -/
def siSpot : TrackInfo :=
  get_simplified_track_info (some (RawTrackData.spotify sampleSpotifyData)) MusicSource.SPOTIFY

/-- A representative raw YTM snapshot with `trackState = 1` (playing). -/
def sampleYtmPlaying : YtmData :=
  { video :=
      { title := some "Track T"
        author := some "Artist B"
        thumbnails := [some "ytm-art-1"]
        album := some "Album Y"
        durationSeconds := some 180 }
    player := { trackState := some 1, adPlaying := false, videoProgress := some 5 } }

/-- The same snapshot with `trackState = 2` (paused). -/
def sampleYtmPaused : YtmData :=
  { sampleYtmPlaying with
      player := { trackState := some 2, adPlaying := false, videoProgress := some 5 } }

/-- The normalized record of `sampleYtmPlaying`. -/
def tYtm : TrackInfo :=
  get_simplified_track_info (some (RawTrackData.ytm sampleYtmPlaying)) MusicSource.YTM

/-- `tYtm` with only the playback progress changed. -/
def tYtmProgress : TrackInfo := { tYtm with progress_ms := some 6000 }

/-- `tYtm` with a different album-art URL. -/
def tYtmNewArt : TrackInfo := { tYtm with album_art_url := some "ytm-art-2" }

/-- A state storing `tYtm` with its artwork fetched and cached. -/
def ytmCachedState : MusicState :=
  { current_track_info := some ⟨tYtm, none⟩
    current_source := MusicSource.YTM
    album_art_image := some 1
    last_album_art_url := some "ytm-art-1"
    needs_immediate_full_refresh := false
    ytm_event_data_queue := none }

/-- A record whose title is the sentinel title but which is not the
nothing-playing sentinel record. -/
def sentinelTitleTrack : TrackInfo :=
  { source := "Spotify"
    title := some "Nothing Playing"
    artist := some "X"
    album := some ""
    album_art_url := none
    duration_ms := some 0
    progress_ms := some 0
    is_playing := true }

/-- A playing Spotify snapshot whose item has no name, artists, album or
duration. -/
def bareSpotifyData : SpotifyData :=
  { item := some { name := none, artists := [], album := none, duration_ms := none }
    is_playing := true
    progress_ms := none }

/-- Scroll configuration used in the wrap-law analysis: speed 2, no initial
pause, one end-pause frame. -/
def cfg7 : ScrollConfig :=
  { enabled := true, speed := 2, separator := "-", initial_pause_frames := 0,
    end_pause_frames := 1 }

/-- The scroll state reached from `zeroScrollState` after five ticks of
`cfg7` on the three-character text; its next tick is the wrap tick. -/
def st7 : ScrollState :=
  { scroll_position := 2, scroll_tick := 1, initial_pause_counter := 0,
    end_pause_counter := 1, at_end := true }

/-- Scroll configuration with speed 3 and no pauses. -/
def cfg6 : ScrollConfig :=
  { enabled := true, speed := 3, separator := " ", initial_pause_frames := 0,
    end_pause_frames := 0 }

/-- Scroll configuration with five initial-pause frames. -/
def cfg6b : ScrollConfig := { cfg6 with initial_pause_frames := 5 }

/-- A display state outside priority mode, showing a track, with a cached
artwork image and a nonzero title initial-pause counter. -/
def npState1 : DisplayState :=
  { title_state := { zeroScrollState with initial_pause_counter := 3, scroll_position := 4 }
    artist_state := zeroScrollState
    album_state := zeroScrollState
    album_art_image := some 5
    last_album_art_url := some "u"
    is_currently_showing_nothing_playing := false
    music_priority_mode := false
    music_priority_active := false
    nothing_playing_since_ts := none
    nothing_playing_timeout_seconds := 10 }

/-- The same display state with priority mode active and a nothing-playing
timestamp old enough for the timeout to fire at time 100. -/
def npState2 : DisplayState :=
  { npState1 with
      music_priority_mode := true
      music_priority_active := true
      nothing_playing_since_ts := some 50 }

/-! ### Helper lemmas -/

/-- A truthy optional string is a `some`. -/
theorem optTruthy_isSome {x : Option String} (h : optTruthy x = true) : x.isSome = true := by
  cases x with
  | none => simp [optTruthy] at h
  | some s => rfl

/-- The `significant_change_detected` flag computed by the locked apply is
exactly `classifySignificant`. -/
theorem ytmApplyCore_significant_eq (s : MusicState) (si : TrackInfo) :
    (ytmApplyCore s si).2.1 = classifySignificant s.current_track_info si := by
  cases h : s.current_track_info with
  | none => simp [ytmApplyCore, simplifiedEqStored, h]
  | some c =>
    by_cases hd : simplifiedEqStored si (some c) = false
    · simp [ytmApplyCore, h, hd]
    · simp [ytmApplyCore, h, hd]

/-- The change kind delivered by one apply step, in terms of the core. -/
theorem applyTrackInfoUpdate_kind (s : MusicState) (si : TrackInfo) (ev : Bool) :
    (applyTrackInfoUpdate s si ev).2 =
      applyChangeKind (ytmApplyCore s si).2.1 (ytmApplyCore s si).2.2 := by
  simp [applyTrackInfoUpdate]

/-- The reconstructed change kind is `Significant` exactly when the
significance flag is set. -/
theorem applyChangeKind_eq_significant (sig proc : Bool) :
    applyChangeKind sig proc = ChangeKind.significant ↔ sig = true := by
  cases sig <;> cases proc <;> simp [applyChangeKind]

/-- Characterization of the significance test. -/
theorem classifySignificant_eq_true_iff (cur : Option StoredInfo) (si : TrackInfo) :
    classifySignificant cur si = true ↔
      ((cur = none ∧ si.title ≠ some "Nothing Playing") ∨
       (∃ c, cur = some c ∧
          (si.title ≠ c.info.title ∨ si.artist ≠ c.info.artist ∨
           si.album_art_url ≠ c.info.album_art_url ∨ si.is_playing ≠ c.info.is_playing))) := by
  cases cur with
  | none =>
    by_cases h : si.title = some "Nothing Playing" <;> simp [classifySignificant, h]
  | some c =>
    by_cases h : (si.title = c.info.title ∧ si.artist = c.info.artist ∧
        si.album_art_url = c.info.album_art_url ∧ si.is_playing = c.info.is_playing)
    · simp [classifySignificant, h]
    · simp only [classifySignificant, if_neg h]
      simp only [Option.some.injEq, true_iff, reduceCtorEq, false_and, false_or]
      exact ⟨c, rfl, by tauto⟩

/-! ### Claim theorems -/

/-- C5: the event bridge between the push callback and the render loop never
holds more than one pending value.  Publishing twice before any take always
succeeds and leaves exactly the second published value retrievable (the
first is discarded), and the render loop's take is non-blocking, returning
nothing when the slot is empty. -/
theorem event_bridge_single_slot :
    (∀ (q : EventQueue) (a b : TrackInfo),
        publishEvent (publishEvent q a) b = some b ∧
        tryTakeEvent (publishEvent (publishEvent q a) b) = (some b, none)) ∧
    tryTakeEvent none = (none, none) :=
  ⟨fun _ _ _ => ⟨rfl, rfl⟩, rfl⟩

/-- C2: applying the same record twice in a row yields change-kind `None`
with no state replacement on the YTM processing path; on the Spotify polling
path, however, the second application of the identical normalized snapshot
re-enters the update branch (`processed = true`, i.e. the stored record is
replaced again and the change is treated as a minor update, not `None`),
because the stored dict carries the extra `album_art_url_prev_spotify` key
that the fresh normalized dict never has. -/
theorem second_apply_same_record_divergence :
    (applyTrackInfoUpdate (applyTrackInfoUpdate initialMusicState tYtm false).1
        tYtm false).2 = ChangeKind.noChange ∧
    (applyTrackInfoUpdate (applyTrackInfoUpdate initialMusicState tYtm false).1
        tYtm false).1.current_track_info =
      (applyTrackInfoUpdate initialMusicState tYtm false).1.current_track_info ∧
    (spotifyPollApply (spotifyPollApply initialMusicState siSpot).1 siSpot).2.2 = true ∧
    (spotifyPollApply (spotifyPollApply initialMusicState siSpot).1 siSpot).2.1 = false ∧
    (spotifyPollApply initialMusicState siSpot).1.current_track_info =
      some ⟨siSpot, some (some "spot-art-1")⟩ := by
  refine ⟨?_, ?_, ?_, ?_, ?_⟩ <;> decide

/-- C3: on the YTM path the claim's artwork-invalidation rule holds on the
sample state — a progress-only update with the same URL leaves the cached
image untouched, a changed URL clears it and makes the new URL the pending
target — but on the Spotify polling path re-applying the very same snapshot
(URL unchanged) clears the cached image, because the previous-URL read at
manager.py line 523 consults the freshly replaced dict and always yields
`None`. -/
theorem spotify_art_cache_cleared_on_unchanged_url :
    (applyTrackInfoUpdate ytmCachedState tYtmProgress false).1.album_art_image = some 1 ∧
    (applyTrackInfoUpdate ytmCachedState tYtmProgress false).1.last_album_art_url = some "ytm-art-1" ∧
    (applyTrackInfoUpdate ytmCachedState tYtmNewArt false).1.album_art_image = none ∧
    (applyTrackInfoUpdate ytmCachedState tYtmNewArt false).1.last_album_art_url = some "ytm-art-2" ∧
    (spotifyPollApply
        { (spotifyPollApply initialMusicState siSpot).1 with album_art_image := some 7 }
        siSpot).1.album_art_image = none := by
  refine ⟨?_, ?_, ?_, ?_, ?_⟩ <;> decide

/-- C1 counterexample: with the store unset, a record whose title is the
literal sentinel title but which is not the nothing-playing sentinel record
is classified `Minor`, not `Significant`, refuting the claimed
"exactly when the store is unset and the new record is not the
nothing-playing sentinel". -/
theorem applyUpdate_sentinel_title_counterexample :
    (applyTrackInfoUpdate initialMusicState sentinelTitleTrack false).2 = ChangeKind.minor ∧
    decide (sentinelTitleTrack = nothingPlayingInfo) = false := by
  refine ⟨?_, ?_⟩ <;> decide

/-- C4 counterexample: a raw YTM snapshot reporting playback-state code 2
(paused) with a valid title and artist and no ad is normalized by the YTM
update pipeline to the nothing-playing sentinel — the track metadata is not
kept — and with nothing stored the classification is `Minor`, not
`Significant`. -/
theorem ytm_paused_pipeline_counterexample :
    (process_ytm_data_update initialMusicState (some sampleYtmPaused) false).2.1 =
      nothingPlayingInfo ∧
    (process_ytm_data_update initialMusicState (some sampleYtmPaused) false).2.2 =
      ChangeKind.minor := by
  refine ⟨?_, ?_⟩ <;> decide

/-- C9 counterexample: a playing Spotify snapshot whose item has no name and
no album name normalizes to a record whose title and album are null, not
empty strings. -/
theorem spotify_null_title_counterexample :
    (get_simplified_track_info (some (RawTrackData.spotify bareSpotifyData))
        MusicSource.SPOTIFY).title = none ∧
    (get_simplified_track_info (some (RawTrackData.spotify bareSpotifyData))
        MusicSource.SPOTIFY).album = none := by
  refine ⟨?_, ?_⟩ <;> decide

/-- C7 counterexample: with speed 2 and one end-pause frame on the text
"abc", the wrap state `st7` is reached from the all-zero state after five
ticks, and the wrap tick itself ends with scroll offset 1, not 0 (the
mid-tick reset to 0 is followed by the speed-gated advance), refuting
"the next tick's offset is 0". -/
theorem scroll_wrap_offset_counterexample :
    scrollFieldIter 6 cfg7 "abc" 10 5 5 zeroScrollState = st7 ∧
    (scrollFieldTick 6 cfg7 "abc" 10 5 st7).1.scroll_position = 1 ∧
    (scrollFieldTick 6 cfg7 "abc" 10 5 st7).2 = "abc" ++ "-" ++ "" := by
  refine ⟨?_, ?_, ?_⟩ <;> decide

/-- C8 counterexample: in the Nothing-Playing branch the initial-pause
counters are not reset (state `npState1`), and on the priority-timeout path
(state `npState2` at time 100) the artwork cache is not cleared, refuting
the claim that every Nothing-Playing invocation resets all scroll state and
clears the cache. -/
theorem nothing_playing_reset_counterexample :
    (nothingPlayingTick npState1 false 100).1.title_state.initial_pause_counter = 3 ∧
    (nothingPlayingTick npState2 false 100).1.album_art_image = some 5 := by
  refine ⟨?_, ?_⟩ <;> decide

/-- C1 (amended): a record differing from the stored one only in
`progress_ms` and/or `duration_ms` is classified `Minor` — never
`Significant` — it still replaces the stored record, and the needs-full-refresh
flag is left unchanged; and the classification is `Significant` exactly when
the store is unset and the new record's title is not the sentinel title
`"Nothing Playing"` (the code compares titles, not whole records), or when
any of title, artist, album-art URL or is-playing differs from the stored
record. -/
theorem applyUpdate_progress_only_minor_and_significant_iff :
    (∀ (s : MusicState) (cur : StoredInfo) (si : TrackInfo) (ev : Bool),
      s.current_track_info = some cur →
      si.source = cur.info.source → si.title = cur.info.title →
      si.artist = cur.info.artist → si.album = cur.info.album →
      si.album_art_url = cur.info.album_art_url → si.is_playing = cur.info.is_playing →
      (si.progress_ms ≠ cur.info.progress_ms ∨ si.duration_ms ≠ cur.info.duration_ms) →
      (applyTrackInfoUpdate s si ev).2 = ChangeKind.minor ∧
      (applyTrackInfoUpdate s si ev).1.current_track_info = some ⟨si, none⟩ ∧
      (applyTrackInfoUpdate s si ev).1.needs_immediate_full_refresh =
        s.needs_immediate_full_refresh) ∧
    (∀ (s : MusicState) (si : TrackInfo) (ev : Bool),
      (applyTrackInfoUpdate s si ev).2 = ChangeKind.significant ↔
        ((s.current_track_info = none ∧ si.title ≠ some "Nothing Playing") ∨
         (∃ c, s.current_track_info = some c ∧
            (si.title ≠ c.info.title ∨ si.artist ≠ c.info.artist ∨
             si.album_art_url ≠ c.info.album_art_url ∨ si.is_playing ≠ c.info.is_playing)))) := by
  constructor
  · intro s cur si ev hc h1 h2 h3 h4 h5 h6 h7
    have hne : ¬ (cur.info = si) := by
      intro he
      rcases h7 with h7 | h7
      · exact h7 (by rw [he])
      · exact h7 (by rw [he])
    have hproc : simplifiedEqStored si s.current_track_info = false := by
      rw [hc]
      show (if (cur.prev_spotify = none ∧ cur.info = si) then true else false) = false
      rw [if_neg (fun hand => hne hand.2)]
    have hsig : classifySignificant s.current_track_info si = false := by
      rw [hc]
      show (if (si.title = cur.info.title ∧ si.artist = cur.info.artist ∧
          si.album_art_url = cur.info.album_art_url ∧ si.is_playing = cur.info.is_playing)
        then false else true) = false
      rw [if_pos ⟨h2, h3, h5, h6⟩]
    refine ⟨?_, ?_, ?_⟩ <;>
      cases ev <;>
        simp [applyTrackInfoUpdate, ytmApplyCore, hproc, hsig, applyChangeKind]
  · intro s si ev
    rw [applyTrackInfoUpdate_kind, applyChangeKind_eq_significant,
      ytmApplyCore_significant_eq, classifySignificant_eq_true_iff]

/-- Witness for C1: the progress-only update `tYtmProgress` applied over the
stored `tYtm` is a `Minor` replacement that leaves the refresh flag alone. -/
theorem applyUpdate_progress_only_minor_witness :
    (applyTrackInfoUpdate ytmCachedState tYtmProgress false).2 = ChangeKind.minor ∧
    (applyTrackInfoUpdate ytmCachedState tYtmProgress false).1.current_track_info =
      some ⟨tYtmProgress, none⟩ ∧
    (applyTrackInfoUpdate ytmCachedState tYtmProgress false).1.needs_immediate_full_refresh =
      ytmCachedState.needs_immediate_full_refresh :=
  applyUpdate_progress_only_minor_and_significant_iff.1 ytmCachedState ⟨tYtm, none⟩
    tYtmProgress false (by decide) (by decide) (by decide) (by decide) (by decide)
    (by decide) (by decide) (Or.inl (by decide))

/-- C4 (amended): for a raw YTM snapshot with playback-state code 2
(paused), a valid (truthy) title and artist, and no ad, the normalizer
`get_simplified_track_info` itself yields `is_playing = false` while keeping
the track's title and artist, and applying that normalized record when no
track info is stored classifies the change as `Significant`; the YTM update
pipeline, however, pre-filters every state other than "actively playing"
(code 1), normalizing such raw data to the nothing-playing sentinel, so an
update processed through the pipeline yields the sentinel and a `Minor`
classification instead. -/
theorem ytm_paused_normalizer_vs_pipeline :
    ∀ (d : YtmData) (s : MusicState) (ev : Bool),
      d.player.adPlaying = false →
      d.player.trackState = some 2 →
      optTruthy d.video.title = true →
      optTruthy d.video.author = true →
      d.video.title ≠ some "Nothing Playing" →
      s.current_track_info = none →
      ((get_simplified_track_info (some (RawTrackData.ytm d)) MusicSource.YTM).is_playing
          = false ∧
       (get_simplified_track_info (some (RawTrackData.ytm d)) MusicSource.YTM).title
          = d.video.title ∧
       (get_simplified_track_info (some (RawTrackData.ytm d)) MusicSource.YTM).artist
          = d.video.author ∧
       (applyTrackInfoUpdate s
          (get_simplified_track_info (some (RawTrackData.ytm d)) MusicSource.YTM) ev).2
          = ChangeKind.significant ∧
       (process_ytm_data_update s (some d) ev).2.1 = nothingPlayingInfo ∧
       (process_ytm_data_update s (some d) ev).2.2 = ChangeKind.minor) := by
  intro d s ev had hts ht ha hnp hcur
  have hsimp : get_simplified_track_info (some (RawTrackData.ytm d)) MusicSource.YTM =
      { source := "YouTube Music"
        title := d.video.title
        artist := d.video.author
        album := some ((d.video.album).getD "")
        album_art_url := (match d.video.thumbnails with | [] => none | u :: _ => u)
        duration_ms := some (match d.video.durationSeconds with | some x => x * 1000 | none => 0)
        progress_ms := some (match d.player.videoProgress with | some p => p * 1000 | none => 0)
        is_playing := false } := by
    simp [get_simplified_track_info, had, ht, ha, hts]
  refine ⟨by rw [hsimp], by rw [hsimp], by rw [hsimp], ?_, ?_, ?_⟩
  · rw [hsimp]
    have hsig : classifySignificant (none : Option StoredInfo)
        { source := "YouTube Music"
          title := d.video.title
          artist := d.video.author
          album := some ((d.video.album).getD "")
          album_art_url := (match d.video.thumbnails with | [] => none | u :: _ => u)
          duration_ms := some (match d.video.durationSeconds with | some x => x * 1000 | none => 0)
          progress_ms := some (match d.player.videoProgress with | some p => p * 1000 | none => 0)
          is_playing := false } = true := by
      show (if d.video.title = some "Nothing Playing" then false else true) = true
      rw [if_neg hnp]
    cases ev <;>
      simp [applyTrackInfoUpdate, ytmApplyCore, simplifiedEqStored, hcur, hsig, applyChangeKind]
  · have : ¬ (d.player.trackState = some 1 ∧ d.player.adPlaying = false) := by
      rw [hts]
      intro hand
      exact absurd hand.1 (by decide)
    simp [process_ytm_data_update, this, get_simplified_track_info]
  · have hflt : ¬ (d.player.trackState = some 1 ∧ d.player.adPlaying = false) := by
      rw [hts]
      intro hand
      exact absurd hand.1 (by decide)
    have hsent : get_simplified_track_info none MusicSource.NONE = nothingPlayingInfo := rfl
    have hsig : classifySignificant (none : Option StoredInfo) nothingPlayingInfo = false := by
      show (if nothingPlayingInfo.title = some "Nothing Playing" then false else true) = false
      rw [if_pos (by decide)]
    cases ev <;>
      simp [process_ytm_data_update, hflt, hsent, applyTrackInfoUpdate, ytmApplyCore,
        simplifiedEqStored, hcur, hsig, applyChangeKind]

/-- Witness for C4 at the concrete paused snapshot `sampleYtmPaused`. -/
theorem ytm_paused_normalizer_vs_pipeline_witness :
    (get_simplified_track_info (some (RawTrackData.ytm sampleYtmPaused)) MusicSource.YTM).is_playing
        = false ∧
    (get_simplified_track_info (some (RawTrackData.ytm sampleYtmPaused)) MusicSource.YTM).title
        = sampleYtmPaused.video.title ∧
    (get_simplified_track_info (some (RawTrackData.ytm sampleYtmPaused)) MusicSource.YTM).artist
        = sampleYtmPaused.video.author ∧
    (applyTrackInfoUpdate initialMusicState
        (get_simplified_track_info (some (RawTrackData.ytm sampleYtmPaused)) MusicSource.YTM)
        false).2 = ChangeKind.significant ∧
    (process_ytm_data_update initialMusicState (some sampleYtmPaused) false).2.1 =
      nothingPlayingInfo ∧
    (process_ytm_data_update initialMusicState (some sampleYtmPaused) false).2.2 =
      ChangeKind.minor :=
  ytm_paused_normalizer_vs_pipeline sampleYtmPaused initialMusicState false
    (by decide) (by decide) (by decide) (by decide) (by decide) (by decide)

/-- C9 (amended): every record produced by the normalizer has a non-null
artist (Spotify joins the artist names into a string, YTM only emits a
record after the truthiness guard on the author, and the sentinel uses the
empty string); on the YTM path and for the nothing-playing sentinel the
title and album are also non-null; but on the Spotify path the title and
album name are passed through from the item verbatim and are null when the
item lacks them (see the counterexample). -/
theorem normalizer_text_fields_amended :
    (∀ (td : Option RawTrackData) (src : MusicSource),
        (get_simplified_track_info td src).artist.isSome = true) ∧
    (∀ (td : Option RawTrackData),
        (get_simplified_track_info td MusicSource.YTM).title.isSome = true ∧
        (get_simplified_track_info td MusicSource.YTM).album.isSome = true) ∧
    nothingPlayingInfo.title.isSome = true ∧
    nothingPlayingInfo.album.isSome = true := by
  have hytm : ∀ (td : Option RawTrackData),
      (get_simplified_track_info td MusicSource.YTM).title.isSome = true ∧
      (get_simplified_track_info td MusicSource.YTM).artist.isSome = true ∧
      (get_simplified_track_info td MusicSource.YTM).album.isSome = true := by
    intro td
    match td with
    | none => exact ⟨rfl, rfl, rfl⟩
    | some (RawTrackData.spotify _) => exact ⟨rfl, rfl, rfl⟩
    | some (RawTrackData.ytm d) =>
      by_cases had : d.player.adPlaying = true
      · simp [get_simplified_track_info, had, nothingPlayingInfo]
      · by_cases hguard : optTruthy d.video.title = false ∨ optTruthy d.video.author = false
        · simp [get_simplified_track_info, had, hguard, nothingPlayingInfo]
        · push_neg at hguard
          have ht : optTruthy d.video.title = true := by
            cases hx : optTruthy d.video.title
            · exact absurd hx hguard.1
            · rfl
          have ha : optTruthy d.video.author = true := by
            cases hx : optTruthy d.video.author
            · exact absurd hx hguard.2
            · rfl
          simp [get_simplified_track_info, had, ht, ha, optTruthy_isSome ht,
            optTruthy_isSome ha]
  refine ⟨?_, fun td => ⟨(hytm td).1, (hytm td).2.2⟩, rfl, rfl⟩
  intro td src
  match src, td with
  | MusicSource.NONE, _ => rfl
  | MusicSource.SPOTIFY, none => rfl
  | MusicSource.SPOTIFY, some (RawTrackData.ytm _) => rfl
  | MusicSource.SPOTIFY, some (RawTrackData.spotify d) =>
    match hitem : d.item with
    | none => simp [get_simplified_track_info, hitem, nothingPlayingInfo]
    | some item =>
      by_cases hp : d.is_playing = false <;>
        simp [get_simplified_track_info, hitem, hp, nothingPlayingInfo]
  | MusicSource.YTM, td => exact (hytm td).2.1

/-- When the tick counter has not yet reached the speed, the advance only
increments the tick counter. -/
theorem scrollAdvance_no_move (cfg : ScrollConfig) (text : String) (st : ScrollState)
    (h : st.scroll_tick + 1 < cfg.speed) :
    scrollAdvance cfg text st = { st with scroll_tick := st.scroll_tick + 1 } := by
  simp only [scrollAdvance]
  rw [if_neg (by omega)]

/-- When the tick counter reaches the speed and the field is not paused at
the end, the advance moves the offset by one modulo the text length and
resets the tick counter. -/
theorem scrollAdvance_move (cfg : ScrollConfig) (text : String) (st : ScrollState)
    (h : st.scroll_tick + 1 ≥ cfg.speed)
    (hfree : st.at_end = false ∨ st.end_pause_counter ≥ cfg.end_pause_frames) :
    scrollAdvance cfg text st =
      { st with scroll_position := (st.scroll_position + 1) % text.length,
                scroll_tick := 0 } := by
  simp only [scrollAdvance]
  rw [if_pos (by omega), if_pos (by simpa using hfree)]

/-- Each advance leaves the offset unchanged or moves it by one modulo the
text length. -/
theorem scrollAdvance_pos (cfg : ScrollConfig) (text : String) (st : ScrollState) :
    (scrollAdvance cfg text st).scroll_position = st.scroll_position ∨
    (scrollAdvance cfg text st).scroll_position = (st.scroll_position + 1) % text.length := by
  simp only [scrollAdvance]
  split_ifs <;> simp

/-- Advancing preserves the offset bound for nonempty text. -/
theorem scrollAdvance_pos_lt (cfg : ScrollConfig) (text : String) (st : ScrollState)
    (h0 : 0 < text.length) (h : st.scroll_position < text.length) :
    (scrollAdvance cfg text st).scroll_position < text.length := by
  rcases scrollAdvance_pos cfg text st with he | he <;> rw [he]
  · exact h
  · exact Nat.mod_lt _ h0

/-- On an overflowing enabled field with the initial pause exhausted and the
offset strictly before the last index, a tick rotates the text and runs the
speed-gated advance on the state with the at-end flag cleared. -/
theorem scrollFieldTick_rotation (truncDiv : Nat) (cfg : ScrollConfig) (text : String)
    (w area : Nat) (st : ScrollState) (hw : w > area) (hen : cfg.enabled = true)
    (hip : cfg.initial_pause_frames ≤ st.initial_pause_counter)
    (hpos : st.scroll_position < text.length - 1) :
    scrollFieldTick truncDiv cfg text w area st =
      (scrollAdvance cfg text { st with at_end := false },
       text.drop st.scroll_position ++ cfg.separator ++ text.take st.scroll_position) := by
  simp only [scrollFieldTick]
  rw [if_pos ⟨hw, hen⟩, if_neg (by omega), if_neg (by omega)]

/-- On an overflowing enabled field already flagged at the end with the end
pause exhausted, a tick performs the wrap (offset and both pause counters
reset, at-end flag cleared, full text plus separator displayed) and then
runs the speed-gated advance. -/
theorem scrollFieldTick_wrap (truncDiv : Nat) (cfg : ScrollConfig) (text : String)
    (w area : Nat) (st : ScrollState) (hw : w > area) (hen : cfg.enabled = true)
    (hip : cfg.initial_pause_frames ≤ st.initial_pause_counter)
    (hpos : st.scroll_position ≥ text.length - 1) (hae : st.at_end = true)
    (hep : cfg.end_pause_frames ≤ st.end_pause_counter) :
    scrollFieldTick truncDiv cfg text w area st =
      (scrollAdvance cfg text
        { st with scroll_position := 0, initial_pause_counter := 0,
                  end_pause_counter := 0, at_end := false },
       text ++ cfg.separator ++ text.take 0) := by
  have hcond : w > area ∧ cfg.enabled = true := ⟨hw, hen⟩
  have h1 : ¬ st.initial_pause_counter < cfg.initial_pause_frames := by omega
  have h3 : ¬ st.at_end = false := by simp [hae]
  have h4 : ¬ st.end_pause_counter < cfg.end_pause_frames := by omega
  simp only [scrollFieldTick, if_pos hcond, if_neg h1, if_pos hpos, if_neg h3, if_neg h4]

/-- During the initial pause, iterating from the all-zero state only counts
up the initial-pause counter. -/
theorem scrollFieldIter_initial_pause (truncDiv : Nat) (cfg : ScrollConfig) (text : String)
    (w area : Nat) (hw : w > area) (hen : cfg.enabled = true) :
    ∀ n, n ≤ cfg.initial_pause_frames →
      scrollFieldIter truncDiv cfg text w area n zeroScrollState =
        { zeroScrollState with initial_pause_counter := n } := by
  intro n
  induction n with
  | zero => intro _; rfl
  | succ k ih =>
    intro h
    have hst := ih (by omega)
    have hcond : w > area ∧ cfg.enabled = true := ⟨hw, hen⟩
    have hk : ({ zeroScrollState with initial_pause_counter := k } :
        ScrollState).initial_pause_counter < cfg.initial_pause_frames := by
      simp only [zeroScrollState]
      omega
    simp only [scrollFieldIter, hst, scrollFieldTick, if_pos hcond, if_pos hk]

/-- C6 (confirmed): for an overflowing field with scrolling enabled, speed 3
and the initial pause exhausted, the offset is unchanged after the first two
render ticks and advances by exactly one on the third; and with five
initial-pause frames, the displayed text is the full unshifted text on each
of the first five render ticks from the all-zero state, for every configured
speed. -/
theorem scroll_speed_three_and_initial_pause :
    (∀ (truncDiv : Nat) (cfg : ScrollConfig) (text : String) (w area : Nat)
        (st : ScrollState),
      w > area → cfg.enabled = true → cfg.speed = 3 →
      cfg.initial_pause_frames ≤ st.initial_pause_counter →
      st.scroll_tick = 0 → st.scroll_position + 1 < text.length →
      (scrollFieldIter truncDiv cfg text w area 1 st).scroll_position =
        st.scroll_position ∧
      (scrollFieldIter truncDiv cfg text w area 2 st).scroll_position =
        st.scroll_position ∧
      (scrollFieldIter truncDiv cfg text w area 3 st).scroll_position =
        st.scroll_position + 1) ∧
    (∀ (truncDiv : Nat) (cfg : ScrollConfig) (text : String) (w area : Nat),
      w > area → cfg.enabled = true → cfg.initial_pause_frames = 5 →
      ∀ n, n < 5 →
        (scrollFieldTick truncDiv cfg text w area
          (scrollFieldIter truncDiv cfg text w area n zeroScrollState)).2 = text) := by
  constructor
  · intro truncDiv cfg text w area st hw hen hs hip ht hpos
    have hpos' : st.scroll_position < text.length - 1 := by omega
    have step1 : (scrollFieldTick truncDiv cfg text w area st).1 =
        { st with at_end := false, scroll_tick := st.scroll_tick + 1 } := by
      rw [scrollFieldTick_rotation truncDiv cfg text w area st hw hen hip hpos']
      rw [scrollAdvance_no_move _ _ _ (by simp only [zeroScrollState]; omega)]
    have step2 : (scrollFieldTick truncDiv cfg text w area
        { st with at_end := false, scroll_tick := st.scroll_tick + 1 }).1 =
        { st with at_end := false, scroll_tick := st.scroll_tick + 1 + 1 } := by
      rw [scrollFieldTick_rotation truncDiv cfg text w area _ hw hen
        (by simpa using hip) (by simpa using hpos')]
      rw [scrollAdvance_no_move _ _ _ (by simp only; omega)]
    have step3 : (scrollFieldTick truncDiv cfg text w area
        { st with at_end := false, scroll_tick := st.scroll_tick + 1 + 1 }).1 =
        { st with at_end := false, scroll_tick := 0,
                  scroll_position := (st.scroll_position + 1) % text.length } := by
      rw [scrollFieldTick_rotation truncDiv cfg text w area _ hw hen
        (by simpa using hip) (by simpa using hpos')]
      rw [scrollAdvance_move _ _ _ (by simp only; omega) (Or.inl rfl)]
    have i1 : scrollFieldIter truncDiv cfg text w area 1 st =
        { st with at_end := false, scroll_tick := st.scroll_tick + 1 } := by
      simp only [scrollFieldIter]
      exact step1
    have i2 : scrollFieldIter truncDiv cfg text w area 2 st =
        { st with at_end := false, scroll_tick := st.scroll_tick + 1 + 1 } := by
      simp only [scrollFieldIter]
      rw [step1, step2]
    have i3 : scrollFieldIter truncDiv cfg text w area 3 st =
        { st with at_end := false, scroll_tick := 0,
                  scroll_position := (st.scroll_position + 1) % text.length } := by
      simp only [scrollFieldIter]
      rw [step1, step2, step3]
    refine ⟨by rw [i1], by rw [i2], ?_⟩
    rw [i3]
    simp only
    exact Nat.mod_eq_of_lt (by omega)
  · intro truncDiv cfg text w area hw hen hfr n hn
    have hst := scrollFieldIter_initial_pause truncDiv cfg text w area hw hen n (by omega)
    rw [hst]
    have hcond : w > area ∧ cfg.enabled = true := ⟨hw, hen⟩
    have hk : ({ zeroScrollState with initial_pause_counter := n } :
        ScrollState).initial_pause_counter < cfg.initial_pause_frames := by
      simp only [zeroScrollState]
      omega
    simp only [scrollFieldTick, if_pos hcond, if_pos hk]

/-- Witness for C6: with the all-zero state on "abcdef", speed 3 advances
the offset exactly at the third tick, and with five initial-pause frames the
third tick still displays the full text. -/
theorem scroll_speed_three_witness :
    ((scrollFieldIter 6 cfg6 "abcdef" 30 10 1 zeroScrollState).scroll_position =
        zeroScrollState.scroll_position ∧
     (scrollFieldIter 6 cfg6 "abcdef" 30 10 2 zeroScrollState).scroll_position =
        zeroScrollState.scroll_position ∧
     (scrollFieldIter 6 cfg6 "abcdef" 30 10 3 zeroScrollState).scroll_position =
        zeroScrollState.scroll_position + 1) ∧
    (scrollFieldTick 6 cfg6b "abcdef" 30 10
      (scrollFieldIter 6 cfg6b "abcdef" 30 10 2 zeroScrollState)).2 = "abcdef" :=
  ⟨scroll_speed_three_and_initial_pause.1 6 cfg6 "abcdef" 30 10 zeroScrollState
      (by decide) (by decide) (by decide) (by decide) (by decide) (by decide),
   scroll_speed_three_and_initial_pause.2 6 cfg6b "abcdef" 30 10
      (by decide) (by decide) (by decide) 2 (by decide)⟩

/-- C7 (amended): for an overflowing enabled field whose offset has reached
(text length − 1), once the end-pause budget has elapsed in the at-end
state, the next render tick resets the offset to 0, resets both pause
counters, clears the at-end flag and displays exactly
`text ++ separator ++ text.take 0`; the tick ends with offset 0 — except
when its tick counter reaches the speed threshold on that very tick, in
which case the mid-tick reset is followed by the normal speed-gated advance
and the tick ends with offset `1 % text.length` (see the counterexample). -/
theorem scroll_wrap_law_amended :
    ∀ (truncDiv : Nat) (cfg : ScrollConfig) (text : String) (w area : Nat)
      (st : ScrollState),
      w > area → cfg.enabled = true →
      cfg.initial_pause_frames ≤ st.initial_pause_counter →
      st.scroll_position = text.length - 1 →
      st.at_end = true →
      cfg.end_pause_frames ≤ st.end_pause_counter →
      ((scrollFieldTick truncDiv cfg text w area st).2 =
          text ++ cfg.separator ++ text.take 0 ∧
       (scrollFieldTick truncDiv cfg text w area st).1.initial_pause_counter = 0 ∧
       (scrollFieldTick truncDiv cfg text w area st).1.end_pause_counter = 0 ∧
       (scrollFieldTick truncDiv cfg text w area st).1.at_end = false ∧
       (st.scroll_tick + 1 < cfg.speed →
          (scrollFieldTick truncDiv cfg text w area st).1.scroll_position = 0) ∧
       (cfg.speed ≤ st.scroll_tick + 1 →
          (scrollFieldTick truncDiv cfg text w area st).1.scroll_position =
            1 % text.length)) := by
  intro truncDiv cfg text w area st hw hen hip hpos hae hep
  have hwrap := scrollFieldTick_wrap truncDiv cfg text w area st hw hen hip
    (by omega) hae hep
  refine ⟨by rw [hwrap], ?_, ?_, ?_, ?_, ?_⟩
  · rw [hwrap]
    rcases scrollAdvance_pos cfg text
      { st with scroll_position := 0, initial_pause_counter := 0,
                end_pause_counter := 0, at_end := false } with he | he <;>
      simp [scrollAdvance] <;> split_ifs <;> rfl
  · rw [hwrap]
    simp only [scrollAdvance]
    split_ifs <;> rfl
  · rw [hwrap]
    simp only [scrollAdvance]
    split_ifs <;> rfl
  · intro hlt
    rw [hwrap, scrollAdvance_no_move _ _ _ (by simp only; omega)]
  · intro hge
    rw [hwrap, scrollAdvance_move _ _ _ (by simp only; omega) (Or.inl rfl)]

/-- Witness for C7 at the concrete wrap state `st7` (whose tick counter hits
the speed threshold, exercising the advance-after-reset case). -/
theorem scroll_wrap_law_amended_witness :
    (scrollFieldTick 6 cfg7 "abc" 10 5 st7).2 = "abc" ++ cfg7.separator ++ "abc".take 0 ∧
    (scrollFieldTick 6 cfg7 "abc" 10 5 st7).1.initial_pause_counter = 0 ∧
    (scrollFieldTick 6 cfg7 "abc" 10 5 st7).1.end_pause_counter = 0 ∧
    (scrollFieldTick 6 cfg7 "abc" 10 5 st7).1.at_end = false ∧
    (scrollFieldTick 6 cfg7 "abc" 10 5 st7).1.scroll_position = 1 % "abc".length :=
  have h := scroll_wrap_law_amended 6 cfg7 "abc" 10 5 st7 (by decide) (by decide)
    (by decide) (by decide) (by decide) (by decide)
  ⟨h.1, h.2.1, h.2.2.1, h.2.2.2.1, h.2.2.2.2.2 (by decide)⟩

/-- Every tick leaves the offset fixed, resets it to 0, or advances by one
modulo the text length (possibly right after a reset to 0). -/
theorem scrollFieldTick_pos_cases (truncDiv : Nat) (cfg : ScrollConfig) (text : String)
    (w area : Nat) (st : ScrollState) :
    (scrollFieldTick truncDiv cfg text w area st).1.scroll_position = st.scroll_position ∨
    (scrollFieldTick truncDiv cfg text w area st).1.scroll_position = 0 ∨
    (scrollFieldTick truncDiv cfg text w area st).1.scroll_position =
      (st.scroll_position + 1) % text.length ∨
    (scrollFieldTick truncDiv cfg text w area st).1.scroll_position = 1 % text.length := by
  simp only [scrollFieldTick, scrollAdvance]
  split_ifs <;> simp_all

/-- One tick preserves the offset bound for nonempty text. -/
theorem scrollFieldTick_pos_lt (truncDiv : Nat) (cfg : ScrollConfig) (text : String)
    (w area : Nat) (st : ScrollState) (h0 : 0 < text.length)
    (h : st.scroll_position < text.length) :
    (scrollFieldTick truncDiv cfg text w area st).1.scroll_position < text.length := by
  rcases scrollFieldTick_pos_cases truncDiv cfg text w area st with he | he | he | he <;>
    rw [he]
  · exact h
  · exact h0
  · exact Nat.mod_lt _ h0
  · exact Nat.mod_lt _ h0

/-- C10 (confirmed): for nonempty fixed text, every render invocation keeps
the scroll offset inside `[0, text length)` — each tick either leaves the
offset unchanged, resets it to 0, or advances it by one modulo the text
length (possibly immediately after a reset) — this holds for the shared
field algorithm at every truncation divisor (title, artist and album
blocks), for the height-gated album block, and along every iterated run
from the all-zero state. -/
theorem scroll_position_invariant :
    (∀ (truncDiv : Nat) (cfg : ScrollConfig) (text : String) (w area : Nat)
        (st : ScrollState),
      0 < text.length → st.scroll_position < text.length →
      (scrollFieldTick truncDiv cfg text w area st).1.scroll_position < text.length ∧
      ((scrollFieldTick truncDiv cfg text w area st).1.scroll_position =
          st.scroll_position ∨
       (scrollFieldTick truncDiv cfg text w area st).1.scroll_position = 0 ∨
       (scrollFieldTick truncDiv cfg text w area st).1.scroll_position =
          (st.scroll_position + 1) % text.length ∨
       (scrollFieldTick truncDiv cfg text w area st).1.scroll_position =
          1 % text.length)) ∧
    (∀ (heightOk : Bool) (cfg : ScrollConfig) (text : String) (w area : Nat)
        (st : ScrollState),
      0 < text.length → st.scroll_position < text.length →
      (albumScrollTick heightOk cfg text w area st).1.scroll_position < text.length) ∧
    (∀ (truncDiv : Nat) (cfg : ScrollConfig) (text : String) (w area : Nat),
      0 < text.length → ∀ n,
      (scrollFieldIter truncDiv cfg text w area n zeroScrollState).scroll_position <
        text.length) := by
  refine ⟨?_, ?_, ?_⟩
  · intro truncDiv cfg text w area st h0 h
    exact ⟨scrollFieldTick_pos_lt truncDiv cfg text w area st h0 h,
      scrollFieldTick_pos_cases truncDiv cfg text w area st⟩
  · intro heightOk cfg text w area st h0 h
    by_cases hh : heightOk = true
    · simp only [albumScrollTick, if_pos hh]
      exact scrollFieldTick_pos_lt 5 cfg text w area st h0 h
    · simp only [albumScrollTick, if_neg hh]
      exact h
  · intro truncDiv cfg text w area h0 n
    induction n with
    | zero => exact h0
    | succ k ih =>
      simp only [scrollFieldIter]
      exact scrollFieldTick_pos_lt truncDiv cfg text w area _ h0 ih

/-- Witness for C10 on the concrete text "abc". -/
theorem scroll_position_invariant_witness :
    ((scrollFieldTick 6 cfg7 "abc" 10 5 zeroScrollState).1.scroll_position <
        "abc".length ∧
     ((scrollFieldTick 6 cfg7 "abc" 10 5 zeroScrollState).1.scroll_position =
          zeroScrollState.scroll_position ∨
      (scrollFieldTick 6 cfg7 "abc" 10 5 zeroScrollState).1.scroll_position = 0 ∨
      (scrollFieldTick 6 cfg7 "abc" 10 5 zeroScrollState).1.scroll_position =
          (zeroScrollState.scroll_position + 1) % "abc".length ∨
      (scrollFieldTick 6 cfg7 "abc" 10 5 zeroScrollState).1.scroll_position =
          1 % "abc".length)) ∧
    (albumScrollTick true cfg7 "abc" 10 5 zeroScrollState).1.scroll_position <
      "abc".length ∧
    (scrollFieldIter 6 cfg7 "abc" 10 5 7 zeroScrollState).scroll_position <
      "abc".length :=
  ⟨scroll_position_invariant.1 6 cfg7 "abc" 10 5 zeroScrollState (by decide) (by decide),
   scroll_position_invariant.2.1 true cfg7 "abc" 10 5 zeroScrollState (by decide) (by decide),
   scroll_position_invariant.2.2 6 cfg7 "abc" 10 5 (by decide) 7⟩

/-- C8 (amended): in the Nothing-Playing branch, when the priority
nothing-playing timeout fires, priority mode is deactivated and the tick
returns immediately with no drawing and no other state change (no scroll
reset, no cache clear); otherwise the branch draws exactly when
transitioning into the Nothing-Playing state or on a forced full refresh,
resets the three scroll offsets and the three tick counters — leaving the
initial-pause counters, end-pause counters and at-end flags unchanged —
clears the artwork cache (both cached image and cached URL), records the
moment this state began, and returns early with no further drawing that
tick. -/
theorem nothing_playing_branch_amended :
    ∀ (s : DisplayState) (r : Bool) (now : Int),
      (npPriorityTimeoutFires s now = true →
        nothingPlayingTick s r now =
          ({ s with music_priority_active := false, nothing_playing_since_ts := none },
           false, true)) ∧
      (npPriorityTimeoutFires s now = false →
        (nothingPlayingTick s r now).2.1 =
          ((!s.is_currently_showing_nothing_playing) || r) ∧
        (nothingPlayingTick s r now).2.2 = false ∧
        (nothingPlayingTick s r now).1.title_state =
          { s.title_state with scroll_position := 0, scroll_tick := 0 } ∧
        (nothingPlayingTick s r now).1.artist_state =
          { s.artist_state with scroll_position := 0, scroll_tick := 0 } ∧
        (nothingPlayingTick s r now).1.album_state =
          { s.album_state with scroll_position := 0, scroll_tick := 0 } ∧
        (nothingPlayingTick s r now).1.album_art_image = none ∧
        (nothingPlayingTick s r now).1.last_album_art_url = none ∧
        (nothingPlayingTick s r now).1.is_currently_showing_nothing_playing = true ∧
        (nothingPlayingTick s r now).1.music_priority_active = s.music_priority_active ∧
        (nothingPlayingTick s r now).1.nothing_playing_since_ts =
          (if s.nothing_playing_since_ts = none then some now
           else s.nothing_playing_since_ts)) := by
  intro s r now
  constructor
  · intro h
    simp [nothingPlayingTick, h]
  · intro h
    have hdrew : ((!s.is_currently_showing_nothing_playing) || r) = true ∨
        ((!s.is_currently_showing_nothing_playing) || r) = false := by
      cases ((!s.is_currently_showing_nothing_playing) || r)
      · exact Or.inr rfl
      · exact Or.inl rfl
    rcases hdrew with hd | hd
    · refine ⟨?_, ?_, ?_, ?_, ?_, ?_, ?_, ?_, ?_, ?_⟩ <;>
        simp [nothingPlayingTick, h, hd] <;> split_ifs <;> simp_all
    · have hshow : s.is_currently_showing_nothing_playing = true := by
        cases hx : s.is_currently_showing_nothing_playing
        · rw [hx] at hd
          simp at hd
        · rfl
      refine ⟨?_, ?_, ?_, ?_, ?_, ?_, ?_, ?_, ?_, ?_⟩ <;>
        simp [nothingPlayingTick, h, hd, hshow] <;> split_ifs <;> simp_all

/-- Witness for C8: the timeout case at `npState2` (time 100) and the
ordinary case at `npState1`. -/
theorem nothing_playing_branch_amended_witness :
    nothingPlayingTick npState2 false 100 =
      ({ npState2 with music_priority_active := false, nothing_playing_since_ts := none },
       false, true) ∧
    (nothingPlayingTick npState1 false 100).1.album_art_image = none ∧
    (nothingPlayingTick npState1 false 100).1.title_state =
      { npState1.title_state with scroll_position := 0, scroll_tick := 0 } :=
  have h2 := (nothing_playing_branch_amended npState2 false 100).1 (by decide)
  have h1 := (nothing_playing_branch_amended npState1 false 100).2 (by decide)
  ⟨h2, h1.2.2.2.2.2.1, h1.2.2.1⟩
